import Mathlib

/-!
Verification of the conestoga Beast messaging adapter
(src/conestoga/beast/envelope.py, src/conestoga/beast/adapter.py,
src/conestoga/hacp/interceptor.py), shallowly embedded in Lean 4.

Python dicts whose values are JSON-like data are modelled as association
lists with unique keys (`List (String × JValue)`); insertion follows
Python dict semantics (existing key keeps its position, new key is
appended).  Environment-generated values (uuid4 ids, the current UTC
time) are passed as parameters.  The transport (redis publish) is
modelled as the list of (channel, message) pairs published; it is taken
to succeed (transport errors are logged and swallowed or retried in the
source and are not the subject of the claims below).
-/

/-- JSON-like values exchanged by the adapter (the result of
`json.loads` / the argument of `json.dumps`). Objects are association
lists with unique keys in insertion order. -/
inductive JValue where
  | jnull
  | jbool (b : Bool)
  | jnum (n : Int)
  | jstr (s : String)
  | jarr (elems : List JValue)
  | jobj (fields : List (String × JValue))

/-- Python dict lookup (`d.get(k)` / `d[k]`) on an association list. -/
def jlookup : List (String × JValue) → String → Option JValue
  | [], _ => none
  | (k, v) :: rest, key => if k = key then some v else jlookup rest key

/-- Python dict assignment `d[k] = v`: an existing key keeps its
position and gets the new value, a fresh key is appended. -/
def dictInsert : List (String × JValue) → String → JValue → List (String × JValue)
  | [], key, v => [(key, v)]
  | (k, w) :: rest, key, v =>
      if k = key then (k, v) :: rest else (k, w) :: dictInsert rest key v

/-- Build a dict from a list of key/value pairs by repeated assignment
(models a Python dict display with `**` splats: later duplicates
overwrite earlier values in place). -/
def mkDict (kvs : List (String × JValue)) : List (String × JValue) :=
  kvs.foldl (fun d kv => dictInsert d kv.1 kv.2) []

/-- Numeric value of a digit character. -/
def charVal (c : Char) : Nat := c.toNat - 48

/-- Read exactly `n` digit characters, returning their value and the
rest of the input. -/
def readDigits : Nat → Nat → List Char → Option (Nat × List Char)
  | 0, acc, cs => some (acc, cs)
  | n + 1, acc, c :: cs =>
      if c.isDigit then readDigits n (acc * 10 + charVal c) cs else none
  | _ + 1, _, [] => none

/-- Gregorian leap year predicate. -/
def isLeap (y : Nat) : Bool := (y % 4 == 0 && y % 100 != 0) || y % 400 == 0

/-- Number of days in month `m` of year `y`. -/
def daysInMonth (y m : Nat) : Nat :=
  if m = 2 then (if isLeap y then 29 else 28)
  else if m = 4 ∨ m = 6 ∨ m = 9 ∨ m = 11 then 30
  else 31

/-- Drop a (possibly empty) run of leading digit characters. -/
def consumeDigits : List Char → List Char
  | c :: cs => if c.isDigit then consumeDigits cs else c :: cs
  | [] => []

/-- Timezone suffix of an ISO-8601 string after the sign: `HH`,
`HH:MM`, `HH:MM:SS`, `HHMM` or `HHMMSS`, with hours below 24 and
minutes/seconds below 60, consuming the whole input. -/
def parseOffsetBody (cs : List Char) : Bool :=
  match readDigits 2 0 cs with
  | none => false
  | some (h, rest) =>
      if 24 ≤ h then false else
      match rest with
      | [] => true
      | ':' :: rest2 =>
          match readDigits 2 0 rest2 with
          | none => false
          | some (m, rest3) =>
              if 60 ≤ m then false else
              match rest3 with
              | [] => true
              | ':' :: rest4 =>
                  match readDigits 2 0 rest4 with
                  | some (s, []) => s < 60
                  | _ => false
              | _ => false
      | _ =>
          match readDigits 2 0 rest with
          | none => false
          | some (m, rest3) =>
              if 60 ≤ m then false else
              match rest3 with
              | [] => true
              | _ =>
                  match readDigits 2 0 rest3 with
                  | some (s, []) => s < 60
                  | _ => false

/-- Timezone part of an ISO-8601 time: empty, `Z`/`z`, or a signed
offset. -/
def parseTz (cs : List Char) : Bool :=
  match cs with
  | [] => true
  | ['Z'] => true
  | ['z'] => true
  | '+' :: rest => parseOffsetBody rest
  | '-' :: rest => parseOffsetBody rest
  | _ => false

/-- Fractional seconds (at least one digit) followed by the timezone
part. -/
def parseFracTz (cs : List Char) : Bool :=
  match cs with
  | c :: rest => if c.isDigit then parseTz (consumeDigits rest) else false
  | [] => false

/-- ISO-8601 time-of-day with optional fraction and timezone:
`HH[:MM[:SS[.ffff]]]` with in-range fields, consuming the whole
input. -/
def parseTime (cs : List Char) : Bool :=
  match readDigits 2 0 cs with
  | none => false
  | some (h, rest) =>
      if 24 ≤ h then false else
      match rest with
      | ':' :: rest2 =>
          match readDigits 2 0 rest2 with
          | none => false
          | some (m, rest3) =>
              if 60 ≤ m then false else
              match rest3 with
              | ':' :: rest4 =>
                  match readDigits 2 0 rest4 with
                  | none => false
                  | some (s, rest5) =>
                      if 60 ≤ s then false else
                      match rest5 with
                      | '.' :: rest6 => parseFracTz rest6
                      | ',' :: rest6 => parseFracTz rest6
                      | _ => parseTz rest5
              | _ => parseTz rest3
      | _ => parseTz rest

/-- Modelled from the spec: Python `datetime.datetime.fromisoformat`
(stdlib, not part of src/), restricted to the extended ISO-8601 format
the adapter produces and consumes: a calendar-validated `YYYY-MM-DD`
date, optionally followed by a one-character separator and a time
`HH[:MM[:SS[.fraction]]]` with an optional `Z`/`z` or `±HH[:MM[:SS]]`
offset.  The basic (separator-free) date format is not modelled.
Returns whether parsing succeeds (the envelope validator only uses
success/failure). -/
def pyFromIsoformat (s : String) : Bool :=
  match readDigits 4 0 s.data with
  | none => false
  | some (y, rest) =>
      if y < 1 then false else
      match rest with
      | '-' :: r2 =>
          match readDigits 2 0 r2 with
          | none => false
          | some (m, r3) =>
              if m < 1 ∨ 12 < m then false else
              match r3 with
              | '-' :: r4 =>
                  match readDigits 2 0 r4 with
                  | none => false
                  | some (d, r5) =>
                      if d < 1 ∨ daysInMonth y m < d then false else
                      match r5 with
                      | [] => true
                      | _ :: r6 => parseTime r6
              | _ => false
      | _ => false

/-- Python `str.replace` specialised to the validator's fixed call
`timestamp.replace("Z", "+00:00")`: every occurrence of the character
`Z` is replaced by `+00:00`. -/
def replaceZ : List Char → List Char
  | [] => []
  | c :: cs =>
      if c = 'Z' then '+' :: '0' :: '0' :: ':' :: '0' :: '0' :: replaceZ cs
      else c :: replaceZ cs

/-- `envelope.py` `validate_envelope`, required-header-field step: the
field must be present and a string (source lines 96-101). Returns the
string for later use. -/
def requireHeaderStr (header : List (String × JValue)) (field : String) :
    Except String String :=
  match jlookup header field with
  | none => .error ("Header missing required field: " ++ field)
  | some (.jstr s) => .ok s
  | some _ => .error ("Header field " ++ field ++ " must be a string")

/-- `envelope.py` `validate_envelope`, trace-context step (source lines
112-119): if present, `trace_context` must be a dict whose `trace_id`
and `span_id`, if present, are strings. -/
def checkTraceContext (header : List (String × JValue)) : Except String Unit :=
  match jlookup header "trace_context" with
  | none => .ok ()
  | some (.jobj tc) =>
      match jlookup tc "trace_id" with
      | some (.jstr _) | none =>
          match jlookup tc "span_id" with
          | some (.jstr _) | none => .ok ()
          | some _ => .error "span_id must be a string"
      | some _ => .error "trace_id must be a string"
  | some _ => .error "trace_context must be a dictionary"

/-- `envelope.py` `validate_envelope`, payload and metadata steps
(source lines 121-139). -/
def checkPayloadMeta (fields : List (String × JValue)) : Except String Unit :=
  match jlookup fields "payload" with
  | none => .error "Envelope missing required payload field"
  | some (.jobj payload) =>
      match jlookup payload "type" with
      | none => .error "Payload missing required type field"
      | some (.jstr _) =>
          match jlookup fields "metadata" with
          | none => .ok ()
          | some (.jobj _) => .ok ()
          | some _ => .error "Metadata must be a dictionary"
      | some _ => .error "Payload type must be a string"
  | some _ => .error "Payload must be a dictionary"

/-- `envelope.py` `validate_envelope` (source lines 73-141): checks, in
source order, that the envelope is a dict with a `header` dict whose
`sender`/`timestamp`/`id` are strings, that the timestamp — after the
source's `replace("Z", "+00:00")` — parses as ISO-8601, the optional
trace context, the `payload` dict with a string `type`, and the
optional `metadata` dict.  Error strings name the first violated rule
(quotes of the Python messages are dropped). -/
def validate_envelope (envelope : JValue) : Except String Unit :=
  match envelope with
  | .jobj fields =>
      match jlookup fields "header" with
      | none => .error "Envelope missing required header field"
      | some (.jobj header) =>
          match requireHeaderStr header "sender" with
          | .error e => .error e
          | .ok _ =>
              match requireHeaderStr header "timestamp" with
              | .error e => .error e
              | .ok ts =>
                  match requireHeaderStr header "id" with
                  | .error e => .error e
                  | .ok _ =>
                      if pyFromIsoformat (String.mk (replaceZ ts.data)) then
                        match checkTraceContext header with
                        | .error e => .error e
                        | .ok _ => checkPayloadMeta fields
                      else .error ("Invalid timestamp format: " ++ ts)
      | some _ => .error "Header must be a dictionary"
  | _ => .error "Envelope must be a dictionary"

/-- The amended reading of the spec's validation claim, stated as a
checker to be compared against `validate_envelope`: `header.sender`,
`header.timestamp`, `header.id` and `payload.type` are present and are
strings, and the timestamp — after replacing `Z` with `+00:00` —
parses as ISO-8601.  Deliberately does NOT require the strings to be
non-empty (the source validator never checks emptiness). -/
def envelope_fields_are_strings (env : JValue) : Bool :=
  match env with
  | .jobj fields =>
      match jlookup fields "header", jlookup fields "payload" with
      | some (.jobj header), some (.jobj payload) =>
          (match jlookup header "sender" with
           | some (.jstr _) => true
           | _ => false)
          && (match jlookup header "timestamp" with
              | some (.jstr ts) => pyFromIsoformat (String.mk (replaceZ ts.data))
              | _ => false)
          && (match jlookup header "id" with
              | some (.jstr _) => true
              | _ => false)
          && (match jlookup payload "type" with
              | some (.jstr _) => true
              | _ => false)
      | _, _ => false
  | _ => false

/-- `envelope.py` `BeastEnvelope`: header, payload and metadata dicts;
the constructor normalises a `None`/empty metadata to `{}` (here `[]`),
as `self.metadata = metadata or {}` does. -/
structure BeastEnvelope where
  header : List (String × JValue)
  payload : List (String × JValue)
  metadata : List (String × JValue)

/-- `BeastEnvelope.to_dict` (source lines 55-60): header and payload,
plus the metadata key only when the metadata dict is truthy
(non-empty). -/
def BeastEnvelope.to_dict (e : BeastEnvelope) : JValue :=
  .jobj (("header", .jobj e.header) :: ("payload", .jobj e.payload) ::
    (match e.metadata with
     | [] => []
     | _ => [("metadata", .jobj e.metadata)]))

/-- `BeastEnvelope.from_dict` (source lines 62-70): validates, then
builds the envelope from the `header`, `payload` and optional
`metadata` entries (`data.get("metadata")` being `None` yields `{}` in
the constructor).  The inner error arms are unreachable once
validation has passed. -/
def BeastEnvelope.from_dict (data : JValue) : Except String BeastEnvelope :=
  match validate_envelope data with
  | .error e => .error e
  | .ok _ =>
      match data with
      | .jobj fields =>
          match jlookup fields "header", jlookup fields "payload" with
          | some (.jobj h), some (.jobj p) =>
              .ok { header := h, payload := p,
                    metadata :=
                      match jlookup fields "metadata" with
                      | some (.jobj m) => m
                      | _ => [] }
          | _, _ => .error "Envelope missing required header field"
      | _ => .error "Envelope must be a dictionary"

/-- `envelope.py` `create_envelope` (source lines 144-182).  `now_ts`
stands for the stamped `datetime.now(UTC).isoformat().replace("+00:00",
"Z")` string and `message_id` for the given or uuid4-generated id, both
environment inputs.  The payload is the dict `{"type": message_type,
**payload_data}`.  The envelope is validated before being returned, so
construction cannot yield an invalid envelope. -/
def create_envelope (sender message_type : String)
    (payload_data : List (String × JValue)) (message_id : String)
    (metadata : Option (List (String × JValue))) (now_ts : String) :
    Except String BeastEnvelope :=
  let envelope : BeastEnvelope :=
    { header := [("sender", .jstr sender), ("timestamp", .jstr now_ts),
                 ("id", .jstr message_id)],
      payload := mkDict (("type", .jstr message_type) :: payload_data),
      metadata := metadata.getD [] }
  match validate_envelope envelope.to_dict with
  | .error e => .error e
  | .ok _ => .ok envelope

/-- A HACP governance policy (`interceptor.py`): a predicate over a
message and a direction string ("in" or "out"). -/
abbrev HACPPolicy := JValue → String → Bool

/-- `interceptor.py` `HACPInterceptor.intercept` (source lines 26-45):
runs the policy list in order; the first policy returning a falsy value
raises `HACPViolationError` (modelled as the error case); otherwise the
message is returned unchanged. -/
def intercept (policies : List HACPPolicy) (message : JValue)
    (direction : String) : Except String JValue :=
  match policies with
  | [] => .ok message
  | p :: rest =>
      if p message direction then intercept rest message direction
      else .error "Message violates HACP policy"

/-- The adapter's optional interceptor: `if self.hacp_interceptor:` wraps
each `intercept` call, so no interceptor means the message passes
through. -/
def run_interceptor (itc : Option (List HACPPolicy)) (message : JValue)
    (direction : String) : Except String JValue :=
  match itc with
  | none => .ok message
  | some policies => intercept policies message direction

/-- Observable effects of `BeastAdapter.send_message`: the (channel,
message) pairs published, the number of `hacp_violations` counter
increments, and the exception (if any) propagated to the caller. -/
structure SendEffects where
  published : List (String × JValue)
  hacp_violations : Nat
  raised : Option String

/-- `adapter.py` `BeastAdapter.send_message` (source lines 158-182).
`obs` is the observability stack when configured, modelled by its
`inject_trace_context` function; the metric counters are tallied
separately.  A policy violation increments the violation counter (when
observability is configured) and RETURNS — the except-arm swallows the
error, so nothing is raised to the caller.  Publishing targets the
fixed channel `beast:global:messages`; the transport is modelled as
succeeding. -/
def send_message (itc : Option (List HACPPolicy))
    (obs : Option (JValue → JValue)) (message : JValue) : SendEffects :=
  match run_interceptor itc message "out" with
  | .error _ =>
      { published := [], hacp_violations := if obs.isSome then 1 else 0,
        raised := none }
  | .ok m =>
      let m2 := match obs with
        | some inject => inject m
        | none => m
      { published := [("beast:global:messages", m2)], hacp_violations := 0,
        raised := none }

/-- Observable effects of `BeastAdapter.async_send_message`: the
caller's payload dict after the call (the method mutates it in place),
the publishes performed, the violation-counter increments, and the
returned correlation id or the raised exception. -/
structure AsyncSendEffects where
  payload_after : List (String × JValue)
  published : List (String × JValue)
  hacp_violations : Nat
  result : Except String String

/-- `adapter.py` `BeastAdapter.async_send_message` (source lines
296-344).  `correlation_id` and `message_id` stand for the two
uuid4-generated strings, `now_ts` for the envelope timestamp
(environment inputs).  The method first stores the correlation id INTO
the caller's payload dict, then builds a validated envelope via
`create_envelope` (a validation error propagates), intercepts outbound
(a violation increments the counter when observability is configured
and re-raises), injects trace context when observability is
configured, publishes to the target agent's inbox channel and returns
the correlation id. -/
def async_send_message (agent_id : String) (itc : Option (List HACPPolicy))
    (obs : Option (JValue → JValue)) (target_agent message_type : String)
    (payload : List (String × JValue))
    (correlation_id message_id now_ts : String) : AsyncSendEffects :=
  let payload2 := dictInsert payload "correlation_id" (.jstr correlation_id)
  match create_envelope agent_id message_type payload2 message_id
      (some [("recipient", .jstr target_agent)]) now_ts with
  | .error e =>
      { payload_after := payload2, published := [], hacp_violations := 0,
        result := .error e }
  | .ok envelope =>
      match run_interceptor itc envelope.to_dict "out" with
      | .error e =>
          { payload_after := payload2, published := [],
            hacp_violations := if obs.isSome then 1 else 0,
            result := .error e }
      | .ok m =>
          let m2 := match obs with
            | some inject => inject m
            | none => m
          { payload_after := payload2,
            published := [("beast:agent:" ++ target_agent ++ ":inbox", m2)],
            hacp_violations := 0, result := .ok correlation_id }

/-- `message.get("payload", \x7b\x7d)` on a decoded message: the payload
dict if present.  Only used after validation, which guarantees the
payload is a dict. -/
def payload_fields (message : JValue) : List (String × JValue) :=
  match message with
  | .jobj fields =>
      match jlookup fields "payload" with
      | some (.jobj p) => p
      | _ => []
  | _ => []

/-- `adapter.py` `BeastAdapter._dispatch_message` /
`_async_dispatch_message`: look up `payload.type` in the handler
registry (modelled by its key set).  Returns the type whose registered
handler is invoked, or `none` when no handler exists (logged warning,
message dropped). -/
def dispatch_message (handlers : List String) (message : JValue) :
    Option String :=
  match jlookup (payload_fields message) "type" with
  | some (.jstr t) => if t ∈ handlers then some t else none
  | _ => none

/-- Observable effects of one receive-path message handling: the
`messages_total type=invalid direction=in` increments, the
`hacp_violations` increments, the pending-reply future resolved (its
correlation id and result payload), the type whose handler was
invoked, and the pending-reply table afterwards. -/
structure HandleEffects where
  invalid_in : Nat
  hacp_violations : Nat
  resolved : Option (String × JValue)
  handler_invoked : Option String
  pending_after : List String

/-- `adapter.py` `BeastAdapter._handle_message` (thread-based receive
path, source lines 101-145).  `raw` is the result of `json.loads`
(`none` for a decode failure, which is logged and dropped).  An
envelope failing validation is dropped with an invalid-message metric;
a policy violation drops the message with a violation metric.
Otherwise the message is dispatched by `payload.type`.  This path has
NO pending-reply correlation check: the pending table is never read or
written. -/
def handle_message (itc : Option (List HACPPolicy)) (obsConfigured : Bool)
    (handlers : List String) (pending : List String) (raw : Option JValue) :
    HandleEffects :=
  match raw with
  | none =>
      { invalid_in := 0, hacp_violations := 0, resolved := none,
        handler_invoked := none, pending_after := pending }
  | some message =>
      match validate_envelope message with
      | .error _ =>
          { invalid_in := if obsConfigured then 1 else 0, hacp_violations := 0,
            resolved := none, handler_invoked := none, pending_after := pending }
      | .ok _ =>
          match run_interceptor itc message "in" with
          | .error _ =>
              { invalid_in := 0,
                hacp_violations := if obsConfigured then 1 else 0,
                resolved := none, handler_invoked := none,
                pending_after := pending }
          | .ok m =>
              { invalid_in := 0, hacp_violations := 0, resolved := none,
                handler_invoked := dispatch_message handlers m,
                pending_after := pending }

/-- `adapter.py` `BeastAdapter._async_handle_message` (async receive
path, source lines 234-280).  Identical to the thread path up to
interception; then `payload.correlation_id` is checked: a truthy
(non-empty) string matching a pending-reply key pops that entry and
resolves its future with the reply's payload, short-circuiting
dispatch; otherwise the message is dispatched by type.  A non-string
correlation value is never a key of the string-keyed pending table, so
it dispatches normally, as in the source. -/
def async_handle_message (itc : Option (List HACPPolicy))
    (obsConfigured : Bool) (handlers : List String) (pending : List String)
    (raw : Option JValue) : HandleEffects :=
  match raw with
  | none =>
      { invalid_in := 0, hacp_violations := 0, resolved := none,
        handler_invoked := none, pending_after := pending }
  | some message =>
      match validate_envelope message with
      | .error _ =>
          { invalid_in := if obsConfigured then 1 else 0, hacp_violations := 0,
            resolved := none, handler_invoked := none, pending_after := pending }
      | .ok _ =>
          match run_interceptor itc message "in" with
          | .error _ =>
              { invalid_in := 0,
                hacp_violations := if obsConfigured then 1 else 0,
                resolved := none, handler_invoked := none,
                pending_after := pending }
          | .ok m =>
              match jlookup (payload_fields m) "correlation_id" with
              | some (.jstr c) =>
                  if c ≠ "" ∧ c ∈ pending then
                    { invalid_in := 0, hacp_violations := 0,
                      resolved := some (c, .jobj (payload_fields m)),
                      handler_invoked := none,
                      pending_after := pending.erase c }
                  else
                    { invalid_in := 0, hacp_violations := 0, resolved := none,
                      handler_invoked := dispatch_message handlers m,
                      pending_after := pending }
              | _ =>
                  { invalid_in := 0, hacp_violations := 0, resolved := none,
                    handler_invoked := dispatch_message handlers m,
                    pending_after := pending }

/-- Python dict key insertion on the pending-reply key set
(`self.pending_replies[correlation_id] = future`): an existing key
keeps its place, a fresh key is appended. -/
def insertCid (pending : List String) (c : String) : List String :=
  if c ∈ pending then pending else pending ++ [c]

/-- Outcome of `BeastAdapter.async_wait_for_reply`: the returned payload
or the raised timeout, and the pending-reply table afterwards. -/
structure WaitEffects where
  result : Except String JValue
  pending_after : List String

/-- `adapter.py` `BeastAdapter.async_wait_for_reply` (source lines
346-360), composed with the receive loop: the method registers a fresh
future under `correlation_id`, then awaits it with a timeout.
`arrival` is the raw message (if any) processed by
`_async_handle_message` during the wait window; the future resolves
exactly when that handling resolved this correlation id, in which case
the resolved payload is returned.  Otherwise `asyncio.TimeoutError` is
raised and the entry is popped (`pop(correlation_id, None)`). -/
def async_wait_for_reply (itc : Option (List HACPPolicy))
    (obsConfigured : Bool) (handlers : List String) (pending : List String)
    (correlation_id : String) (arrival : Option (Option JValue)) :
    WaitEffects :=
  let pending1 := insertCid pending correlation_id
  match arrival with
  | some raw =>
      let h := async_handle_message itc obsConfigured handlers pending1 raw
      match h.resolved with
      | some (c, v) =>
          if c = correlation_id then
            { result := .ok v, pending_after := h.pending_after }
          else
            { result := .error "TimeoutError",
              pending_after := h.pending_after.erase correlation_id }
      | none =>
          { result := .error "TimeoutError",
            pending_after := h.pending_after.erase correlation_id }
  | none =>
      { result := .error "TimeoutError",
        pending_after := pending1.erase correlation_id }

/-- Connection-lifecycle state of a `BeastAdapter` touched by
`async_stop`: the `is_connected` flag, whether a subscribe task is
running, whether the redis client is open, and the pending-reply key
set. -/
structure AdapterConnState where
  is_connected : Bool
  subscribe_task_running : Bool
  redis_open : Bool
  pending_replies : List String
deriving Repr, DecidableEq

/-- `adapter.py` `BeastAdapter.async_stop` (source lines 201-214):
clears `is_connected`, cancels the subscribe task, closes the redis
client.  The pending-reply table is not touched. -/
def async_stop (st : AdapterConnState) : AdapterConnState :=
  { st with is_connected := false, subscribe_task_running := false,
            redis_open := false }

/-- `adapter.py` `BeastAdapter.connect` (source lines 33-58), reduced to
its sleep-delay trace: `retry_delay` is a local starting at 1; each
failed attempt sleeps the current delay and then doubles it, capped by
`min (retry_delay * 2) 30`; a successful attempt ends the loop with no
further sleep.  `attempts` is the success/failure outcome of each
`redis.Redis(...).ping()` in order. -/
def connect_delays (retry_delay : Nat) : List Bool → List Nat
  | [] => []
  | ok :: rest =>
      if ok then []
      else retry_delay :: connect_delays (min (retry_delay * 2) 30) rest

/-- The channel `BeastAdapter._start_heartbeat` publishes on (source
line 68). -/
def heartbeat_channel : String := "beast:global:heartbeat"

/-- Effects of one iteration of the heartbeat loop body: the (channel,
payload) publishes, the `connection_status` gauge value set (when
observability is configured), and the sleep length. -/
structure HeartbeatEffects where
  published : List (String × String)
  connection_status : Option Nat
  sleep : Nat
deriving Repr, DecidableEq

/-- `adapter.py` `BeastAdapter._start_heartbeat` (source lines 60-84),
one loop iteration: while `is_connected`, publish the agent id on
`beast:global:heartbeat`, set `connection_status` to 1 when
observability is configured, and sleep 10 units; when disconnected the
loop exits (`none`).  The transport is modelled as succeeding (a
connection error flips to disconnected and reconnects, which is not
the subject of the claim). -/
def heartbeat_iteration (agent_id : String) (is_connected : Bool)
    (obsConfigured : Bool) : Option HeartbeatEffects :=
  if is_connected then
    some { published := [(heartbeat_channel, agent_id)],
           connection_status := if obsConfigured then some 1 else none,
           sleep := 10 }
  else none

/-! ## Helper lemmas -/

theorem jlookup_dictInsert_self (d : List (String × JValue)) (k : String)
    (v : JValue) : jlookup (dictInsert d k v) k = some v := by
  induction d with
  | nil => simp [dictInsert, jlookup]
  | cons kv rest ih =>
      obtain ⟨k1, v1⟩ := kv
      by_cases h : k1 = k
      · simp [dictInsert, h, jlookup]
      · simp [dictInsert, h, jlookup, ih]

theorem requireHeaderStr_ok (header : List (String × JValue))
    (field s : String) (h : requireHeaderStr header field = .ok s) :
    jlookup header field = some (.jstr s) := by
  unfold requireHeaderStr at h
  split at h <;> simp_all

theorem min_double_cap (a : Nat) : min (min a 30 * 2) 30 = min (a * 2) 30 := by
  omega

theorem connect_delays_replicate (n : Nat) : ∀ k : Nat,
    connect_delays (min (2 ^ k) 30) (List.replicate n false)
      = (List.range n).map (fun i => min (2 ^ (k + i)) 30) := by
  induction n with
  | zero => intro k; simp [connect_delays]
  | succ n ih =>
      intro k
      rw [List.replicate_succ]
      have hstep : connect_delays (min (2 ^ k) 30)
          (false :: List.replicate n false)
          = min (2 ^ k) 30 ::
            connect_delays (min (min (2 ^ k) 30 * 2) 30)
              (List.replicate n false) := by
        simp [connect_delays]
      rw [hstep, min_double_cap, ← pow_succ, ih (k + 1),
        List.range_succ_eq_map, List.map_cons, List.map_map]
      congr 1
      apply List.map_congr_left
      intro i hi
      congr 2
      omega

/-! ## Claim theorems -/

/-- C7: within one `connect()` invocation, `n` consecutive connection
failures produce the sleep-delay sequence `min (2^i) 30` — 1, 2, 4, 8,
16, 30, 30, … — each delay double the previous, capped at 30 units;
`retry_delay` is a local initialised to 1, so a fresh `connect()`
invocation (after a successful connect ended the previous loop) starts
again from a 1-unit delay, and a successful attempt sleeps no
further. -/
theorem C7_backoff_delays (n : Nat) (rest : List Bool) :
    connect_delays 1 (List.replicate n false)
      = (List.range n).map (fun i => min (2 ^ i) 30)
    ∧ connect_delays 1 (false :: rest) = 1 :: connect_delays 2 rest
    ∧ connect_delays 1 (true :: rest) = [] := by
  refine ⟨?_, ?_, ?_⟩
  · have h := connect_delays_replicate n 0
    have e1 : min (2 ^ (0 : Nat)) 30 = 1 := by decide
    rw [e1] at h
    simpa using h
  · simp [connect_delays]
  · simp [connect_delays]

/-- C8 counterexample: the heartbeat iteration publishes the agent id
on the channel `beast:global:heartbeat`, which is not the channel
`bus:global:heartbeat` named by the claim. -/
theorem C8_counterexample_channel :
    (heartbeat_iteration "agent-1" true false).map HeartbeatEffects.published
      = some [("beast:global:heartbeat", "agent-1")]
    ∧ heartbeat_channel ≠ "bus:global:heartbeat" :=
  ⟨rfl, by decide⟩

/-- C8 (amended): while connected, each heartbeat iteration publishes a
liveness marker whose payload is the agent id on the channel
`beast:global:heartbeat` and sleeps the fixed 10-unit interval; when
disconnected the loop body does not run. -/
theorem C8_heartbeat_iteration_effects (agent_id : String)
    (obsConfigured : Bool) :
    heartbeat_iteration agent_id true obsConfigured
      = some { published := [("beast:global:heartbeat", agent_id)],
               connection_status := if obsConfigured then some 1 else none,
               sleep := 10 }
    ∧ heartbeat_iteration agent_id false obsConfigured = none :=
  ⟨rfl, rfl⟩

/-- C9: `async_stop` marks the adapter disconnected and leaves the
pending-reply table untouched, and stopping twice yields the same state
as stopping once. -/
theorem C9_async_stop_frame (st : AdapterConnState) :
    (async_stop st).pending_replies = st.pending_replies
    ∧ (async_stop st).is_connected = false
    ∧ async_stop (async_stop st) = async_stop st :=
  ⟨rfl, rfl, rfl⟩

/-- C10: `async_send_message` stores the freshly generated correlation
id into the caller-supplied payload dict before building the envelope,
so after the call the caller's payload maps `"correlation_id"` to the
very id the method returns (whenever it returns one rather than
raising). -/
theorem C10_payload_mutated_with_returned_id (agent_id : String)
    (itc : Option (List HACPPolicy)) (obs : Option (JValue → JValue))
    (target_agent message_type : String) (payload : List (String × JValue))
    (correlation_id message_id now_ts : String) :
    (async_send_message agent_id itc obs target_agent message_type payload
        correlation_id message_id now_ts).payload_after
      = dictInsert payload "correlation_id" (JValue.jstr correlation_id)
    ∧ jlookup (async_send_message agent_id itc obs target_agent message_type
          payload correlation_id message_id now_ts).payload_after
        "correlation_id" = some (JValue.jstr correlation_id)
    ∧ ((async_send_message agent_id itc obs target_agent message_type payload
          correlation_id message_id now_ts).result.toOption = none
      ∨ (async_send_message agent_id itc obs target_agent message_type payload
          correlation_id message_id now_ts).result.toOption
        = some correlation_id) := by
  have hpa : (async_send_message agent_id itc obs target_agent message_type
      payload correlation_id message_id now_ts).payload_after
      = dictInsert payload "correlation_id" (JValue.jstr correlation_id) := by
    simp only [async_send_message]
    split
    · rfl
    · split <;> rfl
  refine ⟨hpa, ?_, ?_⟩
  · rw [hpa]
    exact jlookup_dictInsert_self _ _ _
  · simp only [async_send_message]
    split
    · exact Or.inl rfl
    · split
      · exact Or.inl rfl
      · exact Or.inr rfl

/-- C1 counterexample: under a deny-all policy chain, the synchronous
`send_message` publishes nothing but also raises nothing — the
`HACPViolationError` is swallowed by the except-arm's `return`,
contradicting the claim that both send paths raise the policy-violation
error to the caller. -/
theorem C1_counterexample_sync_swallows_violation :
    intercept [fun _ _ => false] (JValue.jobj []) "out"
      = Except.error "Message violates HACP policy"
    ∧ (send_message (some [fun _ _ => false]) none (JValue.jobj [])).raised
        = none
    ∧ (send_message (some [fun _ _ => false]) none (JValue.jobj [])).published
        = [] :=
  ⟨rfl, rfl, rfl⟩

/-- C3 counterexample: `JValue.jobj []` fails `validate_envelope`, yet
the synchronous `send_message` publishes it unchanged to the transport
and raises nothing — the sync send path performs no validation at all,
contradicting the claim that every outbound send path raises a
validation error and publishes nothing for an invalid message dict. -/
theorem C3_counterexample_invalid_dict_published :
    validate_envelope (JValue.jobj [])
      = Except.error "Envelope missing required header field"
    ∧ (send_message none none (JValue.jobj [])).published
        = [("beast:global:messages", JValue.jobj [])]
    ∧ (send_message none none (JValue.jobj [])).raised = none :=
  ⟨rfl, rfl, rfl⟩

/-- C2 counterexample: an envelope whose `header.sender`, `header.id`
and `payload.type` are all the empty string passes `validate_envelope`
— the validator only checks `isinstance(..., str)`, never
non-emptiness — contradicting the claim that it rejects empty strings
in those fields. -/
theorem C2_counterexample_empty_fields_accepted :
    validate_envelope (JValue.jobj
      [("header", .jobj
          [("sender", .jstr ""),
           ("timestamp", .jstr "2024-01-01T00:00:00Z"),
           ("id", .jstr "")]),
       ("payload", .jobj [("type", .jstr "")])]) = Except.ok () :=
  rfl

/-- C4 counterexample: on the thread-based receive path, a valid message
whose `payload.correlation_id` (`"c1"`) matches an outstanding
pending-reply entry and whose type (`"t"`) has a registered handler IS
dispatched to that handler, and the pending table is untouched —
`_handle_message` has no correlation check, contradicting the claim
that the check happens in both execution models. -/
theorem C4_counterexample_thread_path_dispatches :
    (handle_message none false ["t"] ["c1"] (some (JValue.jobj
      [("header", .jobj
          [("sender", .jstr "a"),
           ("timestamp", .jstr "2024-01-01T00:00:00Z"),
           ("id", .jstr "m1")]),
       ("payload", .jobj
          [("type", .jstr "t"),
           ("correlation_id", .jstr "c1")])]))).handler_invoked = some "t"
    ∧ (handle_message none false ["t"] ["c1"] (some (JValue.jobj
      [("header", .jobj
          [("sender", .jstr "a"),
           ("timestamp", .jstr "2024-01-01T00:00:00Z"),
           ("id", .jstr "m1")]),
       ("payload", .jobj
          [("type", .jstr "t"),
           ("correlation_id", .jstr "c1")])]))).resolved = none
    ∧ (handle_message none false ["t"] ["c1"] (some (JValue.jobj
      [("header", .jobj
          [("sender", .jstr "a"),
           ("timestamp", .jstr "2024-01-01T00:00:00Z"),
           ("id", .jstr "m1")]),
       ("payload", .jobj
          [("type", .jstr "t"),
           ("correlation_id", .jstr "c1")])]))).pending_after = ["c1"] :=
  ⟨rfl, rfl, rfl⟩

theorem checkPayloadMeta_ok (fields : List (String × JValue))
    (h : checkPayloadMeta fields = Except.ok ()) :
    ∃ payload, jlookup fields "payload" = some (.jobj payload)
      ∧ ∃ t, jlookup payload "type" = some (.jstr t) := by
  unfold checkPayloadMeta at h
  split at h
  · simp at h
  · rename_i payload hp
    split at h
    · simp at h
    · rename_i t ht
      exact ⟨payload, hp, t, ht⟩
    · simp at h
  · simp at h

/-- C2 (amended): whenever `validate_envelope` accepts an envelope, the
four named fields are present string values and the timestamp parses
as ISO-8601 after Z-replacement; together with the counterexample this
shows validation enforces string-ness (and timestamp parseability, so
an empty timestamp is rejected) but not non-emptiness of `sender`,
`id` or `payload.type`. -/
theorem C2_validate_enforces_string_fields (env : JValue)
    (h : validate_envelope env = Except.ok ()) :
    envelope_fields_are_strings env = true := by
  unfold validate_envelope at h
  split at h
  · rename_i fields
    split at h
    · simp at h
    · rename_i header hheader
      split at h
      · simp at h
      · rename_i s hs
        split at h
        · simp at h
        · rename_i ts hts
          split at h
          · simp at h
          · rename_i i hid
            split at h
            · rename_i hiso
              split at h
              · simp at h
              · obtain ⟨payload, hp, t, ht⟩ := checkPayloadMeta_ok fields h
                have h1 := requireHeaderStr_ok header "sender" s hs
                have h2 := requireHeaderStr_ok header "timestamp" ts hts
                have h3 := requireHeaderStr_ok header "id" i hid
                simp [envelope_fields_are_strings, hheader, hp, h1, h2, h3,
                  ht, hiso]
            · simp at h
    · simp at h
  · simp at h

/-- C2 witness: the string-fields characterisation applied to a
concrete envelope accepted by `validate_envelope`. -/
theorem C2_witness_strings_enforced :
    envelope_fields_are_strings (JValue.jobj
      [("header", .jobj
          [("sender", .jstr ""),
           ("timestamp", .jstr "2024-01-01T00:00:00Z"),
           ("id", .jstr "")]),
       ("payload", .jobj [("type", .jstr "")])]) = true :=
  C2_validate_enforces_string_fields _ rfl

/-- C1 (amended): when the policy chain denies an outbound message,
both send paths abort the send (nothing is published) and increment
the violation counter when observability is configured;
`async_send_message` raises the policy-violation error to its caller,
but the synchronous `send_message` swallows the error and returns
normally (nothing is raised). -/
theorem C1_policy_denial_outbound
    (ps : List HACPPolicy) (obs : Option (JValue → JValue)) (message : JValue)
    (e : String) (agent_id target_agent message_type : String)
    (payload : List (String × JValue))
    (correlation_id message_id now_ts : String) (env : BeastEnvelope)
    (e2 : String)
    (hsync : intercept ps message "out" = Except.error e)
    (hcreate : create_envelope agent_id message_type
        (dictInsert payload "correlation_id" (JValue.jstr correlation_id))
        message_id (some [("recipient", JValue.jstr target_agent)]) now_ts
        = Except.ok env)
    (hasync : intercept ps env.to_dict "out" = Except.error e2) :
    (send_message (some ps) obs message).published = []
    ∧ (send_message (some ps) obs message).hacp_violations
        = (if obs.isSome then 1 else 0)
    ∧ (send_message (some ps) obs message).raised = none
    ∧ (async_send_message agent_id (some ps) obs target_agent message_type
        payload correlation_id message_id now_ts).published = []
    ∧ (async_send_message agent_id (some ps) obs target_agent message_type
        payload correlation_id message_id now_ts).hacp_violations
        = (if obs.isSome then 1 else 0)
    ∧ (async_send_message agent_id (some ps) obs target_agent message_type
        payload correlation_id message_id now_ts).result = Except.error e2 := by
  refine ⟨?_, ?_, ?_, ?_, ?_, ?_⟩ <;>
    simp [send_message, async_send_message, run_interceptor, hsync, hcreate,
      hasync]

/-- C1 witness: with a deny-all policy, the async path raises the
violation while the sync path swallows it. -/
theorem C1_witness_deny_all :
    (async_send_message "a" (some [fun _ _ => false]) none "b" "t" []
        "c1" "m1" "2024-01-01T00:00:00Z").result
      = Except.error "Message violates HACP policy"
    ∧ (send_message (some [fun _ _ => false]) none (JValue.jobj [])).raised
      = none :=
  have h := C1_policy_denial_outbound [fun _ _ => false] none (JValue.jobj [])
    "Message violates HACP policy" "a" "b" "t" [] "c1" "m1"
    "2024-01-01T00:00:00Z"
    { header := [("sender", JValue.jstr "a"),
                 ("timestamp", JValue.jstr "2024-01-01T00:00:00Z"),
                 ("id", JValue.jstr "m1")],
      payload := [("type", JValue.jstr "t"),
                  ("correlation_id", JValue.jstr "c1")],
      metadata := [("recipient", JValue.jstr "b")] }
    "Message violates HACP policy" rfl rfl rfl
  ⟨h.2.2.2.2.2, h.2.2.1⟩

theorem create_envelope_ok (sender message_type : String)
    (payload_data : List (String × JValue)) (message_id : String)
    (metadata : Option (List (String × JValue))) (now_ts : String)
    (e : BeastEnvelope)
    (h : create_envelope sender message_type payload_data message_id metadata
        now_ts = Except.ok e) :
    validate_envelope e.to_dict = Except.ok () := by
  simp only [create_envelope] at h
  split at h
  · simp at h
  · rename_i u heq
    obtain rfl : _ = e := by injection h
    exact heq

/-- C3 (amended): the synchronous `send_message` performs no validation
— it publishes the caller's dict unchanged, valid or not — while the
async path builds its envelope with `create_envelope`, which raises a
validation error before anything is published (and any envelope it
does return satisfies `validate_envelope`). -/
theorem C3_sync_unvalidated_async_validated
    (message : JValue) (agent_id target_agent message_type : String)
    (payload : List (String × JValue))
    (correlation_id message_id now_ts : String) (e : String)
    (env : BeastEnvelope) :
    (send_message none none message).published
        = [("beast:global:messages", message)]
    ∧ (create_envelope agent_id message_type
          (dictInsert payload "correlation_id" (JValue.jstr correlation_id))
          message_id (some [("recipient", JValue.jstr target_agent)]) now_ts
          = Except.error e →
        (async_send_message agent_id none none target_agent message_type
            payload correlation_id message_id now_ts).published = []
        ∧ (async_send_message agent_id none none target_agent message_type
            payload correlation_id message_id now_ts).result
          = Except.error e)
    ∧ (create_envelope agent_id message_type
          (dictInsert payload "correlation_id" (JValue.jstr correlation_id))
          message_id (some [("recipient", JValue.jstr target_agent)]) now_ts
          = Except.ok env →
        validate_envelope env.to_dict = Except.ok ()) := by
  refine ⟨rfl, ?_, ?_⟩
  · intro hc
    constructor <;> simp [async_send_message, hc]
  · intro hc
    exact create_envelope_ok _ _ _ _ _ _ _ hc

/-- C3 witness: a timestamp the validator rejects makes the async path
raise before publishing. -/
theorem C3_witness_async_validation_raises :
    (async_send_message "a" none none "b" "t" [] "c1" "m1"
        "bad-ts").published = []
    ∧ (async_send_message "a" none none "b" "t" [] "c1" "m1"
        "bad-ts").result = Except.error "Invalid timestamp format: bad-ts" :=
  (C3_sync_unvalidated_async_validated (JValue.jobj []) "a" "b" "t" [] "c1"
    "m1" "bad-ts" "Invalid timestamp format: bad-ts"
    { header := [], payload := [], metadata := [] }).2.1 rfl

/-- C4 (amended): only the async execution model checks
`payload.correlation_id` against the pending table before dispatch — a
non-empty matching id pops the entry and resolves the waiter with the
reply's payload, and no type handler is invoked — while the
thread-based `_handle_message` performs no correlation check: it
resolves nothing, leaves the pending table unchanged, and dispatches
the reply by its type like any other message. -/
theorem C4_correlation_check_async_only
    (itc : Option (List HACPPolicy)) (obsConfigured : Bool)
    (handlers : List String) (pending : List String) (message : JValue)
    (c : String)
    (hvalid : validate_envelope message = Except.ok ())
    (hitc : run_interceptor itc message "in" = Except.ok message)
    (hcid : jlookup (payload_fields message) "correlation_id"
        = some (JValue.jstr c))
    (hne : c ≠ "") (hmem : c ∈ pending) :
    (async_handle_message itc obsConfigured handlers pending
        (some message)).resolved
      = some (c, JValue.jobj (payload_fields message))
    ∧ (async_handle_message itc obsConfigured handlers pending
        (some message)).handler_invoked = none
    ∧ (async_handle_message itc obsConfigured handlers pending
        (some message)).pending_after = pending.erase c
    ∧ (handle_message itc obsConfigured handlers pending
        (some message)).resolved = none
    ∧ (handle_message itc obsConfigured handlers pending
        (some message)).handler_invoked = dispatch_message handlers message
    ∧ (handle_message itc obsConfigured handlers pending
        (some message)).pending_after = pending := by
  refine ⟨?_, ?_, ?_, ?_, ?_, ?_⟩ <;>
    simp [async_handle_message, handle_message, hvalid, hitc, hcid, hne, hmem]

/-- C4 witness: the async path resolves the concrete pending reply and
invokes no handler. -/
theorem C4_witness_async_resolves :
    (async_handle_message none false ["t"] ["c1"] (some (JValue.jobj
      [("header", .jobj
          [("sender", .jstr "a"),
           ("timestamp", .jstr "2024-01-01T00:00:00Z"),
           ("id", .jstr "m1")]),
       ("payload", .jobj
          [("type", .jstr "t"),
           ("correlation_id", .jstr "c1")])]))).resolved
      = some ("c1", JValue.jobj
          [("type", JValue.jstr "t"), ("correlation_id", JValue.jstr "c1")])
    ∧ (async_handle_message none false ["t"] ["c1"] (some (JValue.jobj
      [("header", .jobj
          [("sender", .jstr "a"),
           ("timestamp", .jstr "2024-01-01T00:00:00Z"),
           ("id", .jstr "m1")]),
       ("payload", .jobj
          [("type", .jstr "t"),
           ("correlation_id", .jstr "c1")])]))).handler_invoked = none :=
  have h := C4_correlation_check_async_only none false ["t"] ["c1"]
    (JValue.jobj
      [("header", .jobj
          [("sender", .jstr "a"),
           ("timestamp", .jstr "2024-01-01T00:00:00Z"),
           ("id", .jstr "m1")]),
       ("payload", .jobj
          [("type", .jstr "t"),
           ("correlation_id", .jstr "c1")])]) "c1" rfl rfl rfl
    (by decide) (by decide)
  ⟨h.1, h.2.1⟩

theorem from_dict_to_dict (e : BeastEnvelope)
    (h : validate_envelope e.to_dict = Except.ok ()) :
    BeastEnvelope.from_dict e.to_dict = Except.ok e := by
  unfold BeastEnvelope.from_dict
  rw [h]
  cases hm : e.metadata with
  | nil =>
      simp [BeastEnvelope.to_dict, hm, jlookup]
      rw [← hm]
  | cons a l =>
      simp [BeastEnvelope.to_dict, hm, jlookup]
      rw [← hm]

/-- C5: decoding the encoded envelope round-trips — for every sender,
message type, payload data, id, metadata and timestamp for which
`create_envelope` succeeds, `BeastEnvelope.from_dict` applied to the
result's `to_dict` form reproduces the very same envelope (equal
header, payload and metadata). -/
theorem C5_roundtrip (sender message_type : String)
    (payload_data : List (String × JValue)) (message_id : String)
    (metadata : Option (List (String × JValue))) (now_ts : String)
    (e : BeastEnvelope)
    (h : create_envelope sender message_type payload_data message_id metadata
        now_ts = Except.ok e) :
    BeastEnvelope.from_dict e.to_dict = Except.ok e :=
  from_dict_to_dict e
    (create_envelope_ok sender message_type payload_data message_id metadata
      now_ts e h)

/-- C5 witness: the round-trip at a concrete created envelope. -/
theorem C5_witness_roundtrip :
    BeastEnvelope.from_dict (BeastEnvelope.to_dict
      { header := [("sender", JValue.jstr "a"),
                   ("timestamp", JValue.jstr "2024-01-01T00:00:00Z"),
                   ("id", JValue.jstr "m1")],
        payload := [("type", JValue.jstr "t")],
        metadata := [("recipient", JValue.jstr "b")] })
      = Except.ok
      { header := [("sender", JValue.jstr "a"),
                   ("timestamp", JValue.jstr "2024-01-01T00:00:00Z"),
                   ("id", JValue.jstr "m1")],
        payload := [("type", JValue.jstr "t")],
        metadata := [("recipient", JValue.jstr "b")] } :=
  C5_roundtrip "a" "t" [] "m1" (some [("recipient", JValue.jstr "b")])
    "2024-01-01T00:00:00Z"
    { header := [("sender", JValue.jstr "a"),
                 ("timestamp", JValue.jstr "2024-01-01T00:00:00Z"),
                 ("id", JValue.jstr "m1")],
      payload := [("type", JValue.jstr "t")],
      metadata := [("recipient", JValue.jstr "b")] } rfl

theorem insertCid_nodup (pending : List String) (c : String)
    (h : pending.Nodup) : (insertCid pending c).Nodup := by
  unfold insertCid
  split
  · exact h
  · rename_i hc
    rw [List.nodup_append]
    refine ⟨h, List.nodup_singleton c, ?_⟩
    intro a ha hb
    rw [List.mem_singleton] at hb
    subst hb
    exact hc ha

theorem not_mem_erase_self (l : List String) (a : String) (h : l.Nodup) :
    a ∉ l.erase a := by
  intro hmem
  rw [List.Nodup.mem_erase_iff h] at hmem
  exact hmem.1 rfl

theorem async_handle_pending_nodup (itc : Option (List HACPPolicy))
    (obsConfigured : Bool) (handlers : List String) (pending : List String)
    (raw : Option JValue) (h : pending.Nodup) :
    (async_handle_message itc obsConfigured handlers pending
      raw).pending_after.Nodup := by
  unfold async_handle_message
  repeat' split
  all_goals first
  | exact List.Nodup.erase _ h
  | exact h

/-- C6: `async_wait_for_reply` registers a slot for the correlation id;
if no message processed during the wait resolves that slot before the
timeout, it raises `TimeoutError` and the correlation id is no longer
in the pending table; if the receive path resolves the slot in time,
the resolved payload is returned.  `pending.Nodup` is the pending
table's dict-key invariant. -/
theorem C6_wait_timeout_or_resolution
    (itc : Option (List HACPPolicy)) (obsConfigured : Bool)
    (handlers : List String) (pending : List String)
    (correlation_id : String) (arrival : Option (Option JValue))
    (hnodup : pending.Nodup) :
    ((arrival = none
        ∨ ∃ raw, arrival = some raw
            ∧ ∀ v, (async_handle_message itc obsConfigured handlers
                (insertCid pending correlation_id) raw).resolved
              ≠ some (correlation_id, v)) →
      (async_wait_for_reply itc obsConfigured handlers pending correlation_id
          arrival).result = Except.error "TimeoutError"
      ∧ correlation_id ∉ (async_wait_for_reply itc obsConfigured handlers
          pending correlation_id arrival).pending_after)
    ∧ (∀ raw v, arrival = some raw →
        (async_handle_message itc obsConfigured handlers
            (insertCid pending correlation_id) raw).resolved
          = some (correlation_id, v) →
        (async_wait_for_reply itc obsConfigured handlers pending
            correlation_id arrival).result = Except.ok v) := by
  constructor
  · intro hcase
    rcases hcase with hnone | ⟨raw, harr, hne⟩
    · subst hnone
      refine ⟨rfl, ?_⟩
      exact not_mem_erase_self _ _ (insertCid_nodup pending correlation_id
        hnodup)
    · subst harr
      have hnod2 := async_handle_pending_nodup itc obsConfigured handlers
        (insertCid pending correlation_id) raw
        (insertCid_nodup pending correlation_id hnodup)
      cases hres : (async_handle_message itc obsConfigured handlers
          (insertCid pending correlation_id) raw).resolved with
      | none =>
          constructor
          · simp [async_wait_for_reply, hres]
          · simp only [async_wait_for_reply, hres]
            exact not_mem_erase_self _ _ hnod2
      | some cv =>
          obtain ⟨c, v⟩ := cv
          have hcne : ¬c = correlation_id := fun hceq => hne v (hceq ▸ hres)
          constructor
          · simp [async_wait_for_reply, hres, hcne]
          · simp only [async_wait_for_reply, hres]
            rw [if_neg hcne]
            exact not_mem_erase_self _ _ hnod2
  · intro raw v harr hres
    subst harr
    simp [async_wait_for_reply, hres]

/-- C6 witness: with no arrival, the wait on `"c1"` over an empty
pending table times out and leaves no `"c1"` entry behind. -/
theorem C6_witness_timeout :
    (async_wait_for_reply none false [] [] "c1" none).result
      = Except.error "TimeoutError"
    ∧ "c1" ∉ (async_wait_for_reply none false [] [] "c1"
        none).pending_after :=
  (C6_wait_timeout_or_resolution none false [] [] "c1" none
    List.nodup_nil).1 (Or.inl rfl)
